import Mathlib

/-!
Shallow embedding of the contact-form component
(`src/unnamed/part_000`, a React component `ContactForm`) together with
proofs of its behavioural contract.

The component owns two pieces of state, `formData : FormData` and
`formState : FormState`, and exposes three handlers:
`handleInputChange`, `validateForm` and `handleSubmit`, plus a render
function and a "Send Another Message" reset control.  The asynchronous
`fetch` call is modelled by passing the network outcome as an explicit
argument; the sequence of `setFormState` calls a handler performs is
returned as an explicit list so that intermediate states are visible.
-/

namespace ContactForm

/-- `FormData`: the three user-entered fields (part_000 lines 11-15). -/
structure FormData where
  name : String
  email : String
  message : String
deriving Repr, DecidableEq

/-- `FormState`: submission lifecycle flags (part_000 lines 17-21).
`error = none` models the JS value `null`. -/
structure FormState where
  isSubmitting : Bool
  isSuccess : Bool
  error : Option String
deriving Repr, DecidableEq

/-- Initial `formData` (part_000 lines 24-28). -/
def initialFormData : FormData := { name := "", email := "", message := "" }

/-- Initial `formState` (part_000 lines 30-34). -/
def initialFormState : FormState :=
  { isSubmitting := false, isSuccess := false, error := none }

/-- Whitespace as recognised by JavaScript's `\s` and
`String.prototype.trim`: tab, LF, VT, FF, CR, space, NBSP, the line and
paragraph separators, the BOM, and the Unicode `Zs` space separators
U+1680, U+2000-U+200A, U+202F, U+205F and U+3000. -/
def isJsWhitespace (c : Char) : Bool :=
  c = ' ' || c = '\t' || c = '\n' || c = '\r' || c = '\x0b' || c = '\x0c' ||
  c = '\u00a0' || c = '\u1680' ||
  (decide (0x2000 ≤ c.toNat) && decide (c.toNat ≤ 0x200a)) ||
  c = '\u2028' || c = '\u2029' || c = '\u202f' || c = '\u205f' ||
  c = '\u3000' || c = '\ufeff'

/-- JavaScript `String.prototype.trim`: strip leading and trailing
whitespace. -/
def jsTrim (s : String) : String :=
  ⟨((s.data.dropWhile isJsWhitespace).reverse.dropWhile isJsWhitespace).reverse⟩

/-- Truthiness test used by `if (!formData.name.trim())` etc.: the trimmed
string is falsy exactly when it is empty. -/
def trimEmpty (s : String) : Bool :=
  (jsTrim s).isEmpty

/-- `/\S+@\S+\.\S+/.test(email)` (part_000 line 60).  The regex matches
some substring of `email` iff there are positions `i < j` such that
`email[i] = '@'`, `email[j] = '.'`, the character just before `'@'` is
non-whitespace, the (at least one) characters strictly between `'@'` and
`'.'` are all non-whitespace, and the character just after `'.'` exists
and is non-whitespace. -/
def emailRegexTest (s : String) : Bool :=
  let cs := s.data
  let n := cs.length
  (List.range n).any fun i =>
    (List.range n).any fun j =>
      decide (1 ≤ i) && decide (i + 2 ≤ j) && decide (j + 1 < n) &&
      decide (cs.getD i ' ' = '@') && decide (cs.getD j ' ' = '.') &&
      !isJsWhitespace (cs.getD (i - 1) ' ') &&
      !isJsWhitespace (cs.getD (j + 1) ' ') &&
      ((List.range (j - (i + 1))).all fun k =>
        !isJsWhitespace (cs.getD (i + 1 + k) ' '))

/-- The four validation error messages, in check order
(part_000 lines 51-69). -/
def nameRequiredMsg : String := "Name is required"

def emailRequiredMsg : String := "Email is required"

def emailInvalidMsg : String := "Please enter a valid email address"

def messageRequiredMsg : String := "Message is required"

/-- The generic submission-failure message (part_000 line 120). -/
def submitFailedMsg : String := "Failed to send message. Please try again later."

/-- The validation logic of `validateForm` (part_000 lines 51-69) as a pure
function from the form data to the error it reports, `none` when all four
checks pass.  The checks appear in exactly the source's order and the
first failing one wins because `validateForm` returns at the first
failure. -/
def validate (fd : FormData) : Option String :=
  if trimEmpty fd.name then some nameRequiredMsg
  else if trimEmpty fd.email then some emailRequiredMsg
  else if !emailRegexTest fd.email then some emailInvalidMsg
  else if trimEmpty fd.message then some messageRequiredMsg
  else none

/-- `validateForm` (part_000 lines 51-69): on failure it performs
`setFormState(prev => ({ ...prev, error: msg }))` and returns `false`;
on success it touches no state and returns `true`.  The returned pair is
(new formState, returned boolean). -/
def validateForm (fd : FormData) (st : FormState) : FormState × Bool :=
  match validate fd with
  | some msg => ({ st with error := some msg }, false)
  | none => (st, true)

/-- JavaScript truthiness of `formState.error` (a `string | null`): truthy
iff it is a non-empty string.  Used by `if (formState.error)`
(part_000 line 46). -/
def errTruthy : Option String → Bool
  | none => false
  | some s => !s.isEmpty

/-- The field a change event targets, from the input's `name` attribute
(`"name"`, `"email"` or `"message"`; part_000 lines 183, 196, 213). -/
inductive Field where
  | name
  | email
  | message
deriving Repr, DecidableEq

/-- `{ ...prev, [name]: value }` (part_000 lines 40-43). -/
def setField (fd : FormData) (f : Field) (v : String) : FormData :=
  match f with
  | .name => { fd with name := v }
  | .email => { fd with email := v }
  | .message => { fd with message := v }

/-- `handleInputChange` (part_000 lines 38-49): update the targeted field;
if `formState.error` is truthy, clear it (`{ ...prev, error: null }`),
otherwise leave `formState` untouched. -/
def handleInputChange (fd : FormData) (st : FormState) (f : Field) (v : String) :
    FormData × FormState :=
  let fd' := setField fd f v
  if errTruthy st.error then (fd', { st with error := none }) else (fd', st)

/-- One hexadecimal digit. -/
def hexDigit (n : Nat) : Char :=
  if n < 10 then Char.ofNat (48 + n) else Char.ofNat (87 + n)

/-- Four-digit lowercase hexadecimal, as in `JSON.stringify`'s
`\uXXXX` escapes. -/
def hex4 (n : Nat) : String :=
  ⟨[hexDigit (n / 4096 % 16), hexDigit (n / 256 % 16),
    hexDigit (n / 16 % 16), hexDigit (n % 16)]⟩

/-- `JSON.stringify` escaping of a single character inside a string
literal. -/
def jsonEscapeChar (c : Char) : String :=
  if c = '"' then "\\\""
  else if c = '\\' then "\\\\"
  else if c = '\x08' then "\\b"
  else if c = '\t' then "\\t"
  else if c = '\n' then "\\n"
  else if c = '\x0c' then "\\f"
  else if c = '\r' then "\\r"
  else if c.toNat < 32 then "\\u" ++ hex4 c.toNat
  else String.singleton c

/-- `JSON.stringify` of a JavaScript string. -/
def jsonString (s : String) : String :=
  "\"" ++ String.join (s.data.map jsonEscapeChar) ++ "\""

/-- `JSON.stringify(formData)` (part_000 line 88): keys appear in the
object's insertion order `name`, `email`, `message`, values exactly as
stored. -/
def jsonStringify (fd : FormData) : String :=
  "\x7b\"name\":" ++ jsonString fd.name ++
  ",\"email\":" ++ jsonString fd.email ++
  ",\"message\":" ++ jsonString fd.message ++ "\x7d"

/-- The HTTP response the `fetch` promise resolves with.  `jsonParses`
records whether `response.json()` succeeds. -/
structure Response where
  status : Nat
  jsonParses : Bool
deriving Repr, DecidableEq

/-- `response.ok`: status in the 2xx range. -/
def Response.ok (r : Response) : Bool :=
  decide (200 ≤ r.status) && decide (r.status < 300)

/-- Outcome of the `fetch` call itself: either it resolves with a
response, or it rejects (network error). -/
inductive FetchResult where
  | success (r : Response)
  | networkError
deriving Repr, DecidableEq

/-- Whether a network outcome takes `handleSubmit` down the success path
(2xx status and parseable body; part_000 lines 91-95). -/
def fetchOk : FetchResult → Bool
  | .success r => r.ok && r.jsonParses
  | .networkError => false

/-- The HTTP request built at part_000 lines 83-89. -/
structure Request where
  method : String
  url : String
  contentType : String
  body : String
deriving Repr, DecidableEq

/-- A call to the `toast` collaborator (part_000 lines 103-106 and
123-127). -/
structure Toast where
  title : String
  description : String
  destructive : Bool
deriving Repr, DecidableEq

def successToast : Toast :=
  { title := "Message sent successfully!",
    description := "Thank you for your message. We'll get back to you soon.",
    destructive := false }

def errorToast : Toast :=
  { title := "Error sending message",
    description := "Please try again later or contact us directly.",
    destructive := true }

/-- The error value caught at part_000 line 115: the thrown
`HTTP error! status: ${status}` (line 92), the `response.json()` parse
failure (line 95), or the rejection of `fetch` itself. -/
inductive CaughtError where
  | httpStatus (status : Nat)
  | jsonParse
  | network
deriving Repr, DecidableEq

/-- Everything one invocation of `handleSubmit` does: the final
`formData`, the values passed to `setFormState` in order, the requests
issued, the toasts shown, and the errors logged via `console.error`. -/
structure SubmitTrace where
  formData : FormData
  stateSeq : List FormState
  requests : List Request
  toasts : List Toast
  logged : List CaughtError
deriving Repr, DecidableEq

/-- The `setFormState` value on entering submission
(part_000 lines 76-80). -/
def submittingState : FormState :=
  { isSubmitting := true, isSuccess := false, error := none }

/-- The `setFormState` value on success (part_000 lines 97-101). -/
def successState : FormState :=
  { isSubmitting := false, isSuccess := true, error := none }

/-- The `setFormState` value in the catch block
(part_000 lines 117-121). -/
def errorState : FormState :=
  { isSubmitting := false, isSuccess := false, error := some submitFailedMsg }

/-- `handleSubmit` (part_000 lines 71-129), with the network outcome as an
explicit argument.  If validation fails the handler returns at once; the
only state change is `validateForm`'s `{ ...prev, error }` and no request
is made.  Otherwise the `Submitting` state is set, exactly one request is
issued, and the outcome decides between the success path (set success
state, success toast, reset `formData`) and the catch block (log, set
error state, destructive toast, `formData` untouched). -/
def handleSubmit (fd : FormData) (st : FormState) (net : FetchResult) :
    SubmitTrace :=
  match validateForm fd st with
  | (st1, false) =>
      { formData := fd, stateSeq := [st1], requests := [], toasts := [],
        logged := [] }
  | (_, true) =>
      let req : Request :=
        { method := "POST", url := "/.netlify/functions/submit",
          contentType := "application/json", body := jsonStringify fd }
      match net with
      | .success r =>
          if !r.ok then
            { formData := fd, stateSeq := [submittingState, errorState],
              requests := [req], toasts := [errorToast],
              logged := [.httpStatus r.status] }
          else if !r.jsonParses then
            { formData := fd, stateSeq := [submittingState, errorState],
              requests := [req], toasts := [errorToast],
              logged := [.jsonParse] }
          else
            { formData := initialFormData,
              stateSeq := [submittingState, successState],
              requests := [req], toasts := [successToast], logged := [] }
      | .networkError =>
          { formData := fd, stateSeq := [submittingState, errorState],
            requests := [req], toasts := [errorToast], logged := [.network] }

/-- The "Send Another Message" control (part_000 line 147): reset
`formState` only. -/
def resetFormState : FormState :=
  { isSubmitting := false, isSuccess := false, error := none }

/-- The rendered form view, as far as the contract is concerned: the
`disabled` attribute of the three inputs and the submit button, the
button label and the error banner (part_000 lines 159-243). -/
structure FormView where
  nameDisabled : Bool
  emailDisabled : Bool
  messageDisabled : Bool
  submitDisabled : Bool
  submitLabel : String
  errorBanner : Option String
deriving Repr, DecidableEq

/-- The rendered output: the success confirmation view when
`formState.isSuccess` (part_000 lines 131-157), otherwise the form. -/
inductive View where
  | successView
  | form (v : FormView)
deriving Repr, DecidableEq

/-- The component's render function (part_000 lines 131-244). -/
def render (st : FormState) : View :=
  if st.isSuccess then .successView
  else .form
    { nameDisabled := st.isSubmitting,
      emailDisabled := st.isSubmitting,
      messageDisabled := st.isSubmitting,
      submitDisabled := st.isSubmitting,
      submitLabel :=
        if st.isSubmitting then "Sending Message..." else "Send Message",
      errorBanner := st.error }

/-- The component's operations, for reachability: a field change, a submit
attempt with some network outcome, and the success-view reset control. -/
inductive Event where
  | input (f : Field) (v : String)
  | submit (net : FetchResult)
  | reset
deriving Repr, DecidableEq

/-- Run one event to completion.  Returns the final component state and
the list of every `formState` value set during the event (in order), so
that intermediate states are visible to invariants. -/
def runEvent (s : FormData × FormState) (e : Event) :
    (FormData × FormState) × List FormState :=
  match e with
  | .input f v =>
      let r := handleInputChange s.1 s.2 f v
      (r, if s.2 = r.2 then [] else [r.2])
  | .submit net =>
      let t := handleSubmit s.1 s.2 net
      ((t.formData, t.stateSeq.getLastD s.2), t.stateSeq)
  | .reset => ((s.1, resetFormState), [resetFormState])

/-- Run a list of events from a state, collecting every `formState` value
that was ever current (including intermediate ones inside an event). -/
def runEvents (s : FormData × FormState) :
    List Event → (FormData × FormState) × List FormState
  | [] => (s, [])
  | e :: es =>
      let (s', seen) := runEvent s e
      let (s'', seen') := runEvents s' es
      (s'', seen ++ seen')

/-- Every `formState` value the component ever holds while processing
`es` from the initial state: the initial state itself plus everything
set along the way. -/
def statesSeen (es : List Event) : List FormState :=
  initialFormState :: (runEvents (initialFormData, initialFormState) es).2

/-- Spec-side definition, following the spec's words for comparison with
`validateForm`: the fixed check list, each entry pairing "does this check
pass" with the message reported when it fails — name trimmed non-empty,
email trimmed non-empty, email matches the loose pattern, message trimmed
non-empty. -/
def specCheckSequence (fd : FormData) : List (Bool × String) :=
  [(!trimEmpty fd.name, nameRequiredMsg),
   (!trimEmpty fd.email, emailRequiredMsg),
   (emailRegexTest fd.email, emailInvalidMsg),
   (!trimEmpty fd.message, messageRequiredMsg)]

/-- Spec-side: the message of the first failing check, if any. -/
def firstFailingMessage (l : List (Bool × String)) : Option String :=
  (l.find? fun p => !p.1).map Prod.snd

/-- The errors any operation may store: `null` or one of the five message
strings. -/
def allowedError (e : Option String) : Prop :=
  e = none ∨ e = some nameRequiredMsg ∨ e = some emailRequiredMsg ∨
  e = some emailInvalidMsg ∨ e = some messageRequiredMsg ∨
  e = some submitFailedMsg

instance (e : Option String) : Decidable (allowedError e) := by
  unfold allowedError; infer_instance

/-- Read a field back out of `FormData`. -/
def getField (fd : FormData) : Field → String
  | .name => fd.name
  | .email => fd.email
  | .message => fd.message

/-- `validate` only ever reports one of the four validation messages. -/
lemma validate_cases (fd : FormData) :
    validate fd = none ∨ validate fd = some nameRequiredMsg ∨
    validate fd = some emailRequiredMsg ∨ validate fd = some emailInvalidMsg ∨
    validate fd = some messageRequiredMsg := by
  unfold validate
  split_ifs <;> simp

/-- C1.  `validateForm` refines the spec's check list: it produces exactly
the message of the first failing check of the fixed sequence
name-emptiness, email-emptiness, email-format, message-emptiness
(updating only `error` and returning `false`); when every check passes it
returns `true` and leaves the state untouched. -/
theorem validateForm_first_failing_check (fd : FormData) (st : FormState) :
    validateForm fd st =
      match firstFailingMessage (specCheckSequence fd) with
      | some m => ({ st with error := some m }, false)
      | none => (st, true) := by
  unfold validateForm validate specCheckSequence firstFailingMessage
  by_cases h1 : trimEmpty fd.name <;> by_cases h2 : trimEmpty fd.email <;>
    by_cases h3 : emailRegexTest fd.email <;> by_cases h4 : trimEmpty fd.message <;>
    simp [h1, h2, h3, h4, List.find?]

/-- C5, counterexample.  The claim as stated fails: for
`{name := "a", email := "", message := "m"}` the pattern finds no match in
the email, name and message are non-empty after trimming, yet validation
reports "Email is required", not "Please enter a valid email address". -/
theorem validate_email_format_counterexample :
    trimEmpty "a" = false ∧ trimEmpty "m" = false ∧
    emailRegexTest "" = false ∧
    validate { name := "a", email := "", message := "m" } =
      some emailRequiredMsg ∧
    emailRequiredMsg ≠ emailInvalidMsg := by
  refine ⟨rfl, rfl, rfl, rfl, ?_⟩
  decide

/-- C5, amended.  For every `FormData` whose name and message are
non-empty after trimming and whose email is non-empty after trimming but
on which the pattern `\S+@\S+\.\S+` finds no match, validation fails with
"Please enter a valid email address". -/
theorem validate_email_format (fd : FormData)
    (hn : trimEmpty fd.name = false) (he : trimEmpty fd.email = false)
    (hr : emailRegexTest fd.email = false)
    (_hm : trimEmpty fd.message = false) :
    validate fd = some emailInvalidMsg := by
  unfold validate
  simp [hn, he, hr]

/-- Witness for C5's amended theorem at
`{name := "a", email := "bad", message := "m"}`. -/
theorem validate_email_format_witness :
    validate { name := "a", email := "bad", message := "m" } =
      some emailInvalidMsg :=
  validate_email_format { name := "a", email := "bad", message := "m" }
    rfl rfl rfl rfl

/-- C7.  A field change sets the targeted field to the new value and
leaves the other two fields unchanged; if `error` was non-null the new
`formState` is the old one with `error` cleared, otherwise `formState` is
returned unmodified; `isSubmitting` and `isSuccess` are unchanged either
way.  (The hypothesis excludes `error = some ""`, a value no operation
ever stores: JavaScript's truthiness test would not clear it.) -/
theorem handleInputChange_spec (fd : FormData) (st : FormState) (f : Field)
    (v : String) (hne : st.error ≠ some "") :
    getField (handleInputChange fd st f v).1 f = v ∧
    (∀ g : Field, g ≠ f →
      getField (handleInputChange fd st f v).1 g = getField fd g) ∧
    (st.error = none → (handleInputChange fd st f v).2 = st) ∧
    (st.error ≠ none →
      (handleInputChange fd st f v).2 = { st with error := none }) ∧
    (handleInputChange fd st f v).2.isSubmitting = st.isSubmitting ∧
    (handleInputChange fd st f v).2.isSuccess = st.isSuccess := by
  unfold handleInputChange errTruthy
  match he : st.error with
  | none =>
      refine ⟨?_, ?_, ?_, ?_, ?_, ?_⟩ <;>
        cases f <;> simp [setField, getField, he] <;> intro g hg <;>
        cases g <;> simp_all [getField]
  | some s =>
      have hs : ¬s.isEmpty := fun h =>
        hne (by rw [he, (String.isEmpty_iff s).mp h])
      refine ⟨?_, ?_, ?_, ?_, ?_, ?_⟩ <;>
        cases f <;> simp [setField, getField, hs] <;> intro g hg <;>
        cases g <;> simp_all [getField]

/-- Witness for C7 at a state displaying "Name is required" and a change
to the email field. -/
theorem handleInputChange_spec_witness :
    getField (handleInputChange { name := "", email := "", message := "" }
      { isSubmitting := false, isSuccess := false,
        error := some nameRequiredMsg } .email "x").1 .email = "x" ∧
    (handleInputChange { name := "", email := "", message := "" }
      { isSubmitting := false, isSuccess := false,
        error := some nameRequiredMsg } .email "x").2 =
      { isSubmitting := false, isSuccess := false, error := none } := by
  have h := handleInputChange_spec { name := "", email := "", message := "" }
    { isSubmitting := false, isSuccess := false,
      error := some nameRequiredMsg } .email "x" (by decide)
  exact ⟨h.1, h.2.2.2.1 (by decide)⟩

/-- C9.  Whenever validation passes, `handleSubmit` issues exactly one
HTTP request, whatever the network outcome: method `POST`, path
`/.netlify/functions/submit`, header `Content-Type: application/json`,
body the JSON serialization of the current `FormData` with the field
values exactly as entered. -/
theorem handleSubmit_request (fd : FormData) (st : FormState)
    (net : FetchResult) (hv : validate fd = none) :
    (handleSubmit fd st net).requests =
      [{ method := "POST", url := "/.netlify/functions/submit",
         contentType := "application/json", body := jsonStringify fd }] := by
  unfold handleSubmit validateForm
  rw [hv]
  cases net with
  | success r =>
      by_cases hok : r.ok <;> by_cases hj : r.jsonParses <;> simp [hok, hj]
  | networkError => simp

/-- Witness for C9: the valid form `{name := "a", email := "a@b.c",
message := "m"}` submitted into a network error still issues exactly the
documented request. -/
theorem handleSubmit_request_witness :
    (handleSubmit { name := "a", email := "a@b.c", message := "m" }
        initialFormState .networkError).requests =
      [{ method := "POST", url := "/.netlify/functions/submit",
         contentType := "application/json",
         body :=
           "\x7b\"name\":\"a\",\"email\":\"a@b.c\",\"message\":\"m\"\x7d" }] := by
  rw [handleSubmit_request { name := "a", email := "a@b.c", message := "m" }
    initialFormState .networkError rfl]
  rfl

/-- C2.  Valid data plus a 2xx response with a parseable body: the handler
ends in `{isSubmitting := false, isSuccess := true, error := none}`,
resets the form data to empty strings, and shows the success toast
exactly once. -/
theorem handleSubmit_success (fd : FormData) (st : FormState) (r : Response)
    (hv : validate fd = none) (hok : r.ok = true)
    (hj : r.jsonParses = true) :
    (handleSubmit fd st (.success r)).stateSeq.getLastD st =
      { isSubmitting := false, isSuccess := true, error := none } ∧
    (handleSubmit fd st (.success r)).formData =
      { name := "", email := "", message := "" } ∧
    (handleSubmit fd st (.success r)).toasts = [successToast] := by
  unfold handleSubmit validateForm
  rw [hv]
  simp [hok, hj, successState, initialFormData]

/-- Witness for C2 at `{name := "a", email := "a@b.c", message := "m"}`
and a 200 response with parseable body. -/
theorem handleSubmit_success_witness :
    (handleSubmit { name := "a", email := "a@b.c", message := "m" }
        initialFormState (.success { status := 200, jsonParses := true })
      ).stateSeq.getLastD initialFormState =
      { isSubmitting := false, isSuccess := true, error := none } ∧
    (handleSubmit { name := "a", email := "a@b.c", message := "m" }
        initialFormState (.success { status := 200, jsonParses := true })
      ).formData = { name := "", email := "", message := "" } ∧
    (handleSubmit { name := "a", email := "a@b.c", message := "m" }
        initialFormState (.success { status := 200, jsonParses := true })
      ).toasts = [successToast] :=
  handleSubmit_success { name := "a", email := "a@b.c", message := "m" }
    initialFormState { status := 200, jsonParses := true } rfl rfl rfl

/-- C3.  Valid data plus any unsuccessful network outcome — non-2xx
status, thrown network error, or unparseable body — gives the identical
result: final state `{isSubmitting := false, isSuccess := false,
error := some "Failed to send message. Please try again later."}`, the
destructive toast, and the form data exactly as entered. -/
theorem handleSubmit_failure (fd : FormData) (st : FormState)
    (net : FetchResult) (hv : validate fd = none)
    (hf : fetchOk net = false) :
    (handleSubmit fd st net).stateSeq.getLastD st =
      { isSubmitting := false, isSuccess := false,
        error := some submitFailedMsg } ∧
    (handleSubmit fd st net).formData = fd ∧
    (handleSubmit fd st net).toasts = [errorToast] := by
  unfold handleSubmit validateForm
  rw [hv]
  cases net with
  | success r =>
      unfold fetchOk at hf
      by_cases hok : r.ok <;> by_cases hj : r.jsonParses <;>
        simp [hok, hj, errorState] at hf ⊢
  | networkError => simp [errorState]

/-- Witness for C3: the same valid form against a 500 response. -/
theorem handleSubmit_failure_witness :
    (handleSubmit { name := "a", email := "a@b.c", message := "m" }
        initialFormState (.success { status := 500, jsonParses := true })
      ).stateSeq.getLastD initialFormState =
      { isSubmitting := false, isSuccess := false,
        error := some submitFailedMsg } ∧
    (handleSubmit { name := "a", email := "a@b.c", message := "m" }
        initialFormState (.success { status := 500, jsonParses := true })
      ).formData = { name := "a", email := "a@b.c", message := "m" } ∧
    (handleSubmit { name := "a", email := "a@b.c", message := "m" }
        initialFormState (.success { status := 500, jsonParses := true })
      ).toasts = [errorToast] :=
  handleSubmit_failure { name := "a", email := "a@b.c", message := "m" }
    initialFormState (.success { status := 500, jsonParses := true })
    rfl rfl

/-- C4.  First conjunct: an empty-or-whitespace name makes the handler
store exactly "Name is required" as its only state change.  Second
conjunct: whenever validation fails the handler makes no request, shows
no toast, and its only state change keeps `isSubmitting` and `isSuccess`
exactly as they were — in particular `isSubmitting` is never set to true
and the fetch is never reached. -/
theorem handleSubmit_invalid (fd : FormData) (st : FormState)
    (net : FetchResult) :
    (trimEmpty fd.name = true →
      (handleSubmit fd st net).stateSeq =
        [{ st with error := some nameRequiredMsg }]) ∧
    (validate fd ≠ none →
      (handleSubmit fd st net).requests = [] ∧
      (handleSubmit fd st net).toasts = [] ∧
      ∀ s ∈ (handleSubmit fd st net).stateSeq,
        s.isSubmitting = st.isSubmitting ∧ s.isSuccess = st.isSuccess) := by
  constructor
  · intro hname
    unfold handleSubmit validateForm validate
    simp [hname]
  · intro hv
    match h : validate fd with
    | none => exact absurd h hv
    | some m =>
        unfold handleSubmit validateForm
        rw [h]
        simp

/-- Witness for C4 at `{name := " ", email := "a@b.c", message := "m"}`
(whitespace-only name). -/
theorem handleSubmit_invalid_witness :
    (handleSubmit { name := " ", email := "a@b.c", message := "m" }
        initialFormState .networkError).stateSeq =
      [{ initialFormState with error := some nameRequiredMsg }] ∧
    (handleSubmit { name := " ", email := "a@b.c", message := "m" }
        initialFormState .networkError).requests = [] := by
  have h := handleSubmit_invalid
    { name := " ", email := "a@b.c", message := "m" }
    initialFormState .networkError
  exact ⟨h.1 rfl, (h.2 (by decide)).1⟩

/-- C8.  Whenever the form view is rendered with `isSubmitting = true`,
all three inputs and the submit control carry `disabled`, so submit
cannot be re-invoked while a submission is in flight. -/
theorem render_disabled_while_submitting (st : FormState) (fv : FormView)
    (h : st.isSubmitting = true) (hf : render st = .form fv) :
    fv.nameDisabled = true ∧ fv.emailDisabled = true ∧
    fv.messageDisabled = true ∧ fv.submitDisabled = true := by
  unfold render at hf
  by_cases hs : st.isSuccess
  · simp [hs] at hf
  · simp [hs] at hf
    rw [← hf]
    simp [h]

/-- Witness for C8 at the `Submitting` state itself. -/
theorem render_disabled_while_submitting_witness :
    { nameDisabled := true, emailDisabled := true, messageDisabled := true,
      submitDisabled := true, submitLabel := "Sending Message...",
      errorBanner := none : FormView }.submitDisabled = true :=
  (render_disabled_while_submitting submittingState
    { nameDisabled := true, emailDisabled := true, messageDisabled := true,
      submitDisabled := true, submitLabel := "Sending Message...",
      errorBanner := none } rfl rfl).2.2.2

/-- The property every momentarily-held `formState` satisfies: when
`isSubmitting` is set, `isSuccess` is off and `error` is null; and the
stored error is one of the five messages or null. -/
def stateOk (st : FormState) : Prop :=
  (st.isSubmitting = true → st.isSuccess = false ∧ st.error = none) ∧
  allowedError st.error

/-- Every state a single event sets satisfies `stateOk`, and the resting
state it leaves behind has `isSubmitting = false` and an allowed error,
provided the entry state did. -/
lemma runEvent_ok (s : FormData × FormState) (e : Event)
    (h1 : s.2.isSubmitting = false) (h2 : allowedError s.2.error) :
    ((runEvent s e).1.2.isSubmitting = false ∧
      allowedError (runEvent s e).1.2.error) ∧
    ∀ st ∈ (runEvent s e).2, stateOk st := by
  rcases e with ⟨f, v⟩ | net | _
  · simp only [runEvent]
    have hst' : (handleInputChange s.1 s.2 f v).2 = s.2 ∨
        (handleInputChange s.1 s.2 f v).2 = { s.2 with error := none } := by
      unfold handleInputChange
      by_cases he : errTruthy s.2.error <;> simp [he]
    have hsub' : (handleInputChange s.1 s.2 f v).2.isSubmitting = false := by
      rcases hst' with h | h <;> rw [h] <;> simp [h1]
    have herr' : allowedError (handleInputChange s.1 s.2 f v).2.error := by
      rcases hst' with h | h <;> rw [h]
      · exact h2
      · exact Or.inl rfl
    refine ⟨⟨hsub', herr'⟩, fun st hst => ?_⟩
    by_cases hif : s.2 = (handleInputChange s.1 s.2 f v).2
    · rw [if_pos hif] at hst
      simp at hst
    · rw [if_neg hif] at hst
      simp at hst
      rw [hst]
      exact ⟨fun hs => absurd hs (by simp [hsub']), herr'⟩
  · simp only [runEvent]
    rcases hv : validate s.1 with _ | m
    · have hseq : (handleSubmit s.1 s.2 net).stateSeq =
          [submittingState,
            if fetchOk net then successState else errorState] := by
        unfold handleSubmit validateForm
        rw [hv]
        cases net with
        | success r =>
            by_cases hok : r.ok <;> by_cases hj : r.jsonParses <;>
              simp [fetchOk, hok, hj]
        | networkError => simp [fetchOk]
      by_cases hnet : fetchOk net
      · rw [hnet] at hseq
        rw [if_pos rfl] at hseq
        rw [hseq]
        refine ⟨⟨rfl, Or.inl rfl⟩, fun st hst => ?_⟩
        simp at hst
        rcases hst with hst | hst <;> rw [hst]
        · exact ⟨fun _ => ⟨rfl, rfl⟩, Or.inl rfl⟩
        · exact ⟨fun hs => absurd hs (by simp [successState]), Or.inl rfl⟩
      · rw [Bool.not_eq_true] at hnet
        rw [hnet] at hseq
        rw [if_neg (by simp)] at hseq
        rw [hseq]
        refine ⟨⟨rfl, ?_⟩, fun st hst => ?_⟩
        · exact Or.inr (Or.inr (Or.inr (Or.inr (Or.inr rfl))))
        · simp at hst
          rcases hst with hst | hst <;> rw [hst]
          · exact ⟨fun _ => ⟨rfl, rfl⟩, Or.inl rfl⟩
          · refine ⟨fun hs => absurd hs (by simp [errorState]), ?_⟩
            exact Or.inr (Or.inr (Or.inr (Or.inr (Or.inr rfl))))
    · have hm : allowedError (some m) := by
        have h5 := validate_cases s.1
        rw [hv] at h5
        unfold allowedError
        rcases h5 with h | h | h | h | h
        · exact absurd h (by simp)
        · exact Or.inr (Or.inl h)
        · exact Or.inr (Or.inr (Or.inl h))
        · exact Or.inr (Or.inr (Or.inr (Or.inl h)))
        · exact Or.inr (Or.inr (Or.inr (Or.inr (Or.inl h))))
      have hseq : (handleSubmit s.1 s.2 net).stateSeq =
          [{ s.2 with error := some m }] := by
        unfold handleSubmit validateForm
        rw [hv]
      rw [hseq]
      refine ⟨⟨h1, hm⟩, fun st hst => ?_⟩
      simp at hst
      rw [hst]
      exact ⟨fun hs => absurd hs (by simp [h1]), hm⟩
  · simp only [runEvent]
    refine ⟨⟨rfl, Or.inl rfl⟩, fun st hst => ?_⟩
    simp at hst
    rw [hst]
    exact ⟨fun hs => absurd hs (by simp [resetFormState]), Or.inl rfl⟩

/-- `runEvent_ok` extended along any event list. -/
lemma runEvents_ok (es : List Event) :
    ∀ s : FormData × FormState, s.2.isSubmitting = false →
    allowedError s.2.error →
    ((runEvents s es).1.2.isSubmitting = false ∧
      allowedError (runEvents s es).1.2.error) ∧
    ∀ st ∈ (runEvents s es).2, stateOk st := by
  induction es with
  | nil => intro s h1 h2; exact ⟨⟨h1, h2⟩, fun st hst => by simp [runEvents] at hst⟩
  | cons e es ih =>
      intro s h1 h2
      have he := runEvent_ok s e h1 h2
      have hrest := ih (runEvent s e).1 he.1.1 he.1.2
      refine ⟨by simpa [runEvents] using hrest.1, fun st hst => ?_⟩
      simp only [runEvents, List.mem_append] at hst
      rcases hst with hst | hst
      · exact he.2 st hst
      · exact hrest.2 st hst

/-- Every state the component ever holds satisfies `stateOk`. -/
lemma statesSeen_ok (es : List Event) : ∀ st ∈ statesSeen es, stateOk st := by
  intro st hst
  rcases List.mem_cons.mp hst with hst | hst
  · rw [hst]
    exact ⟨fun hs => absurd hs (by simp [initialFormState]), Or.inl rfl⟩
  · exact (runEvents_ok es (initialFormData, initialFormState) rfl
      (Or.inl rfl)).2 st hst

/-- C6.  In every `formState` reachable from the initial state through
any sequence of field changes, submits (with any network outcome) and
resets — intermediate states during an event included — `isSubmitting`
and `isSuccess` are never simultaneously true, and `error` is null
whenever `isSubmitting` is true. -/
theorem reachable_state_invariant (es : List Event) (st : FormState)
    (hst : st ∈ statesSeen es) :
    ¬(st.isSubmitting = true ∧ st.isSuccess = true) ∧
    (st.isSubmitting = true → st.error = none) := by
  have h := statesSeen_ok es st hst
  constructor
  · intro hc
    have hs := (h.1 hc.1).1
    rw [hc.2] at hs
    exact absurd hs (by simp)
  · intro hsub
    exact (h.1 hsub).2

/-- Witness for C6: the state reached after a successful submission of a
valid form satisfies the invariant. -/
theorem reachable_state_invariant_witness :
    ¬(successState.isSubmitting = true ∧ successState.isSuccess = true) ∧
    (successState.isSubmitting = true → successState.error = none) :=
  reachable_state_invariant
    [.input .name "a", .input .email "a@b.c", .input .message "m",
      .submit (.success { status := 200, jsonParses := true })]
    successState (by decide)

/-- C10.  In every reachable `formState` — intermediate states included —
`error` is null or exactly one of the four validation messages or the
generic failure message; no operation ever stores any other string (the
thrown `HTTP error! status: ...` detail in particular is only logged,
never stored). -/
theorem reachable_error_allowed (es : List Event) (st : FormState)
    (hst : st ∈ statesSeen es) : allowedError st.error :=
  (statesSeen_ok es st hst).2

/-- Witness for C10: the state reached after a failed submission of a
valid form stores one of the allowed messages. -/
theorem reachable_error_allowed_witness :
    allowedError errorState.error :=
  reachable_error_allowed
    [.input .name "a", .input .email "a@b.c", .input .message "m",
      .submit .networkError]
    errorState (by decide)

end ContactForm
